import Mathlib

/-!
Shallow embedding of the StockSignalAdvisor analysis core
(backend/app: agents/tools/technical.py, agents/tools/fundamentals.py,
agents/tools/sentiment.py, agents/orchestrator.py, agents/agent.py,
services/cache.py, services/limiter.py, api/routes/analysis.py).

Python floats are modelled as exact rationals (ℚ); `round(x, n)` is
modelled by round-half-to-even at n decimal places, matching Python's
rounding rule on exact decimal inputs.  Dictionaries become association
lists or functions, exceptions become `Except`/`Option`, and the TTL
behaviour of the caches is idealised to a single time window.
-/

namespace StockSignal

/-- Python `str.upper()` (ASCII), as a character-wise map. -/
def pyUpper (s : String) : String :=
  String.mk (s.data.map Char.toUpper)

/-- Python `str.lower()` (ASCII), as a character-wise map. -/
def pyLower (s : String) : String :=
  String.mk (s.data.map Char.toLower)

/-- Python `round` uses banker's rounding (round half to even). -/
def roundHalfEven (q : ℚ) : ℤ :=
  let f : ℤ := ⌊q⌋
  let r : ℚ := q - f
  if r < 1/2 then f
  else if r > 1/2 then f + 1
  else if f % 2 = 0 then f else f + 1

/-- `round(x, d)` from Python, on exact rationals. -/
def pyRound (q : ℚ) (d : ℕ) : ℚ :=
  (roundHalfEven (q * (10 ^ d : ℕ)) : ℚ) / ((10 ^ d : ℕ) : ℚ)

/- ----------------------------------------------------------------
   app/enums.py
   ---------------------------------------------------------------- -/

inductive SignalType
  | buy
  | hold
  | sell
deriving DecidableEq, Repr

inductive SentimentType
  | positive
  | negative
  | neutral
  | mixed
deriving DecidableEq, Repr

inductive TrendDirection
  | above
  | below
deriving DecidableEq, Repr

inductive MacdSignal
  | bullish
  | bearish
  | neutral
deriving DecidableEq, Repr

inductive VolumeTrend
  | high
  | low
  | neutral
deriving DecidableEq, Repr

/- ----------------------------------------------------------------
   app/agents/tools/technical.py
   ---------------------------------------------------------------- -/

/-- `prices.diff()` dropping the leading NaN: element `i` is
`prices[i+1] - prices[i]`. -/
def priceDeltas (prices : List ℚ) : List ℚ :=
  List.zipWith (fun a b => a - b) prices.tail prices

/-- The recursive Wilder smoothing loop
`avg = (avg * (period - 1) + new) / period` from `calculate_rsi`. -/
def wilderSmooth (period : ℕ) (seed : ℚ) (rest : List ℚ) : ℚ :=
  rest.foldl (fun avg x => (avg * ((period : ℚ) - 1) + x) / (period : ℚ)) seed

/-- Average gain of `calculate_rsi`: seeded from the first `period`
deltas, then smoothed over the remainder. -/
def rsiAvgGain (prices : List ℚ) (period : ℕ) : ℚ :=
  let gains := (priceDeltas prices).map (fun d => max 0 d)
  wilderSmooth period (((gains.take period).sum) / (period : ℚ)) (gains.drop period)

/-- Average loss of `calculate_rsi`. -/
def rsiAvgLoss (prices : List ℚ) (period : ℕ) : ℚ :=
  let losses := (priceDeltas prices).map (fun d => max 0 (-d))
  wilderSmooth period (((losses.take period).sum) / (period : ℚ)) (losses.drop period)

/-- `calculate_rsi(prices, period=14)`. -/
def calculate_rsi (prices : List ℚ) (period : ℕ := 14) : Option ℚ :=
  if prices.length < period + 1 then
    none
  else
    let avg_gain := rsiAvgGain prices period
    let avg_loss := rsiAvgLoss prices period
    if avg_loss = 0 then
      some 100
    else
      let rs := avg_gain / avg_loss
      some (pyRound (100 - 100 / (1 + rs)) 2)

/-- `interpret_rsi(rsi)`. -/
def interpret_rsi (rsi : ℚ) : String :=
  if rsi < 30 then "oversold"
  else if rsi > 70 then "overbought"
  else "neutral"

/-- `calculate_sma(prices, period)`. -/
def calculate_sma (prices : List ℚ) (period : ℕ) : Option ℚ :=
  if prices.length < period then none
  else some (pyRound (((prices.drop (prices.length - period)).sum) / (period : ℚ)) 2)

/-- `series.ewm(span=span, adjust=False).mean()`: seeded at the first
element, `ema_i = alpha * x_i + (1 - alpha) * ema_(i-1)` with
`alpha = 2 / (span + 1)`.  Returns the full EMA series. -/
def emaSeries (span : ℕ) (xs : List ℚ) : List ℚ :=
  let alpha : ℚ := 2 / ((span : ℚ) + 1)
  match xs with
  | [] => []
  | x :: rest =>
      (rest.foldl
        (fun (acc : List ℚ × ℚ) y =>
          let e := alpha * y + (1 - alpha) * acc.2
          (acc.1 ++ [e], e))
        ([x], x)).1

/-- `calculate_macd(prices, fast=12, slow=26, signal=9)`.
Returns `(macd_line, signal_line, histogram)` final values. -/
def calculate_macd (prices : List ℚ) (fast_period : ℕ := 12) (slow_period : ℕ := 26)
    (signal_period : ℕ := 9) : Option ℚ × Option ℚ × Option ℚ :=
  if prices.length < slow_period + signal_period then
    (none, none, none)
  else
    let ema_fast := emaSeries fast_period prices
    let ema_slow := emaSeries slow_period prices
    let macd_line := List.zipWith (fun a b => a - b) ema_fast ema_slow
    let signal_line := emaSeries signal_period macd_line
    let histogram := List.zipWith (fun a b => a - b) macd_line signal_line
    (macd_line.getLast?.map (fun q => pyRound q 4),
     signal_line.getLast?.map (fun q => pyRound q 4),
     histogram.getLast?.map (fun q => pyRound q 4))

/-- `interpret_macd(macd_line, signal_line)`. -/
def interpret_macd (macd_line : Option ℚ) (signal_line : Option ℚ) : MacdSignal :=
  match macd_line, signal_line with
  | none, _ => MacdSignal.neutral
  | _, none => MacdSignal.neutral
  | some m, some s =>
      if m > s then MacdSignal.bullish
      else if m < s then MacdSignal.bearish
      else MacdSignal.neutral

/-- `assess_volume_trend(volumes, window=20)`. -/
def assess_volume_trend (volumes : List ℚ) (window : ℕ := 20) : VolumeTrend :=
  if volumes.length < window + 1 then
    VolumeTrend.neutral
  else
    let avg_volume := ((volumes.drop (volumes.length - window - 1)).take window).sum / (window : ℚ)
    let recent_volume := volumes.getLastD 0
    if avg_volume = 0 then
      VolumeTrend.neutral
    else
      let ratio := recent_volume / avg_volume
      if ratio > 3/2 then VolumeTrend.high
      else if ratio < 1/2 then VolumeTrend.low
      else VolumeTrend.neutral

/-- `calculate_technical_score(rsi, macd_signal, price_vs_sma50,
price_vs_sma200, volume_trend)`. -/
def calculate_technical_score (rsi : Option ℚ) (macd_signal : MacdSignal)
    (price_vs_sma50 : Option TrendDirection) (price_vs_sma200 : Option TrendDirection)
    (volume_trend : VolumeTrend) : ℚ :=
  let score : ℚ := 0
  let score := score +
    (match rsi with
     | none => 0
     | some r =>
         if r < 30 then (1/4 : ℚ)
         else if r > 70 then 0
         else (1/4 : ℚ) * (1 - (r - 30) / 40))
  let score := score +
    (match macd_signal with
     | MacdSignal.bullish => (1/4 : ℚ)
     | MacdSignal.neutral => (1/8 : ℚ)
     | MacdSignal.bearish => 0)
  let score := score +
    (if price_vs_sma50 = some TrendDirection.above then (1/5 : ℚ) else 0)
  let score := score +
    (if price_vs_sma200 = some TrendDirection.above then (1/5 : ℚ) else 0)
  let score := score +
    (match volume_trend with
     | VolumeTrend.high => (1/10 : ℚ)
     | VolumeTrend.neutral => (1/20 : ℚ)
     | VolumeTrend.low => 0)
  pyRound score 4

/- ----------------------------------------------------------------
   app/models/domain.py (records used by the scoring engines)
   ---------------------------------------------------------------- -/

structure FundamentalAnalysis where
  pe_ratio : Option ℚ := none
  forward_pe : Option ℚ := none
  peg_ratio : Option ℚ := none
  price_to_book : Option ℚ := none
  price_to_sales : Option ℚ := none
  enterprise_to_ebitda : Option ℚ := none
  profit_margin : Option ℚ := none
  operating_margin : Option ℚ := none
  gross_margin : Option ℚ := none
  return_on_equity : Option ℚ := none
  return_on_assets : Option ℚ := none
  revenue_growth : Option ℚ := none
  earnings_growth : Option ℚ := none
  earnings_quarterly_growth : Option ℚ := none
  current_ratio : Option ℚ := none
  debt_to_equity : Option ℚ := none
  free_cash_flow : Option ℚ := none
  operating_cash_flow : Option ℚ := none
  dividend_yield : Option ℚ := none
  dividend_payout_ratio : Option ℚ := none
  market_cap : Option ℚ := none
  enterprise_value : Option ℚ := none
  shares_outstanding : Option ℚ := none
  float_shares : Option ℚ := none
  analyst_target : Option ℚ := none
  analyst_rating : Option ℚ := none
  number_of_analysts : Option ℤ := none
  fundamental_score : Option ℚ := none
  insights : List String := []
deriving DecidableEq, Repr

structure FundamentalInterpretation where
  score : ℚ
  insights : List String := []
deriving DecidableEq, Repr

/- ----------------------------------------------------------------
   app/agents/tools/fundamentals.py
   ---------------------------------------------------------------- -/

/-- Left-pad a digit string with zeros to `d` characters. -/
def padZeros (s : String) (d : ℕ) : String :=
  String.mk (List.replicate (d - s.length) '0') ++ s

/-- Python `f"{q:.d f}"` fixed-point formatting of an exact rational:
round half to even at `d` decimal places, keeping the sign of the
input (so `-0.04` formats as `"-0.0"` at one decimal, as in Python). -/
def fmtFixed (q : ℚ) (d : ℕ) : String :=
  let m : ℕ := 10 ^ d
  let n : ℤ := roundHalfEven (q * (m : ℚ))
  let sign := if q < 0 then "-" else ""
  let mag := n.natAbs
  if d = 0 then sign ++ toString mag
  else sign ++ toString (mag / m) ++ "." ++ padZeros (toString (mag % m)) d

/-- `_score_valuation(metrics)`: returns `(raw_score, factor_count, insights)`. -/
def _score_valuation (metrics : FundamentalAnalysis) : ℚ × ℕ × List String :=
  let acc : ℚ × ℕ × List String := (0, 0, [])
  let acc :=
    match metrics.pe_ratio with
    | none => acc
    | some pe =>
        let (score, factors, insights) := acc
        if pe < 15 then
          (score + 1, factors + 1,
           insights ++ ["P/E ratio of " ++ fmtFixed pe 1 ++ " suggests undervaluation"])
        else if pe > 30 then
          (score, factors + 1,
           insights ++ ["P/E ratio of " ++ fmtFixed pe 1 ++ " suggests overvaluation"])
        else
          (score + (1 - (pe - 15) / 15), factors + 1,
           insights ++ ["P/E ratio of " ++ fmtFixed pe 1 ++ " is moderate"])
  let acc :=
    match metrics.peg_ratio with
    | none => acc
    | some peg =>
        let (score, factors, insights) := acc
        if peg < 1 then
          (score + 1, factors + 1,
           insights ++ ["PEG ratio of " ++ fmtFixed peg 2 ++ " indicates growth at a reasonable price"])
        else if peg > 2 then
          (score, factors + 1,
           insights ++ ["PEG ratio of " ++ fmtFixed peg 2 ++ " suggests overvaluation relative to growth"])
        else
          (score + (1 - (peg - 1)), factors + 1,
           insights ++ ["PEG ratio of " ++ fmtFixed peg 2 ++ " is moderate"])
  acc

/-- `_score_profitability(metrics)`. -/
def _score_profitability (metrics : FundamentalAnalysis) : ℚ × ℕ × List String :=
  let acc : ℚ × ℕ × List String := (0, 0, [])
  let acc :=
    match metrics.profit_margin with
    | none => acc
    | some pm =>
        let (score, factors, insights) := acc
        let margin_pct := pm * 100
        if pm > 1/5 then
          (score + 1, factors + 1,
           insights ++ ["Profit margin of " ++ fmtFixed margin_pct 1 ++ "% is strong"])
        else if pm < 1/20 then
          (score, factors + 1,
           insights ++ ["Profit margin of " ++ fmtFixed margin_pct 1 ++ "% is weak"])
        else
          (score + (pm - 1/20) / (3/20), factors + 1,
           insights ++ ["Profit margin of " ++ fmtFixed margin_pct 1 ++ "% is moderate"])
  let acc :=
    match metrics.return_on_equity with
    | none => acc
    | some roe =>
        let (score, factors, insights) := acc
        let roe_pct := roe * 100
        if roe > 3/20 then
          (score + 1, factors + 1,
           insights ++ ["ROE of " ++ fmtFixed roe_pct 1 ++ "% indicates efficient use of equity"])
        else if roe < 1/20 then
          (score, factors + 1,
           insights ++ ["ROE of " ++ fmtFixed roe_pct 1 ++ "% is below average"])
        else
          (score + (roe - 1/20) / (1/10), factors + 1,
           insights ++ ["ROE of " ++ fmtFixed roe_pct 1 ++ "% is moderate"])
  acc

/-- `_score_growth(metrics)`. -/
def _score_growth (metrics : FundamentalAnalysis) : ℚ × ℕ × List String :=
  let acc : ℚ × ℕ × List String := (0, 0, [])
  let acc :=
    match metrics.revenue_growth with
    | none => acc
    | some rg =>
        let (score, factors, insights) := acc
        let growth_pct := rg * 100
        if rg > 3/20 then
          (score + 1, factors + 1,
           insights ++ ["Revenue growth of " ++ fmtFixed growth_pct 1 ++ "% is strong"])
        else if rg < 0 then
          (score, factors + 1,
           insights ++ ["Revenue declining at " ++ fmtFixed growth_pct 1 ++ "%"])
        else
          (score + rg / (3/20), factors + 1,
           insights ++ ["Revenue growth of " ++ fmtFixed growth_pct 1 ++ "% is moderate"])
  let acc :=
    match metrics.earnings_growth with
    | none => acc
    | some eg =>
        let (score, factors, insights) := acc
        let growth_pct := eg * 100
        if eg > 1/5 then
          (score + 1, factors + 1,
           insights ++ ["Earnings growth of " ++ fmtFixed growth_pct 1 ++ "% is strong"])
        else if eg < 0 then
          (score, factors + 1,
           insights ++ ["Earnings declining at " ++ fmtFixed growth_pct 1 ++ "%"])
        else
          (score + eg / (1/5), factors + 1,
           insights ++ ["Earnings growth of " ++ fmtFixed growth_pct 1 ++ "% is moderate"])
  acc

/-- `_score_financial_health(metrics)`. -/
def _score_financial_health (metrics : FundamentalAnalysis) : ℚ × ℕ × List String :=
  let acc : ℚ × ℕ × List String := (0, 0, [])
  let acc :=
    match metrics.debt_to_equity with
    | none => acc
    | some de =>
        let (score, factors, insights) := acc
        if de < 1/2 then
          (score + 1, factors + 1,
           insights ++ ["Low debt-to-equity of " ++ fmtFixed de 2 ++ " indicates conservative financing"])
        else if de > 2 then
          (score, factors + 1,
           insights ++ ["High debt-to-equity of " ++ fmtFixed de 2 ++ " signals leverage risk"])
        else
          (score + (1 - (de - 1/2) / (3/2)), factors + 1,
           insights ++ ["Debt-to-equity of " ++ fmtFixed de 2 ++ " is moderate"])
  let acc :=
    match metrics.current_ratio with
    | none => acc
    | some cr =>
        let (score, factors, insights) := acc
        if cr > 3/2 then
          (score + 1, factors + 1,
           insights ++ ["Current ratio of " ++ fmtFixed cr 2 ++ " shows strong liquidity"])
        else if cr < 1 then
          (score, factors + 1,
           insights ++ ["Current ratio of " ++ fmtFixed cr 2 ++ " indicates liquidity concern"])
        else
          (score + (cr - 1) / (1/2), factors + 1,
           insights ++ ["Current ratio of " ++ fmtFixed cr 2 ++ " is adequate"])
  let acc :=
    match metrics.free_cash_flow with
    | none => acc
    | some fcf =>
        let (score, factors, insights) := acc
        if fcf > 0 then
          (score + 1, factors + 1,
           insights ++ ["Positive free cash flow supports financial flexibility"])
        else
          (score, factors + 1,
           insights ++ ["Negative free cash flow may limit financial flexibility"])
  acc

/-- `interpret_fundamentals(metrics)`. -/
def interpret_fundamentals (metrics : FundamentalAnalysis) : FundamentalInterpretation :=
  let categories := [
    _score_valuation metrics,
    _score_profitability metrics,
    _score_growth metrics,
    _score_financial_health metrics
  ]
  let step := fun (acc : ℚ × List String) (cat : ℚ × ℕ × List String) =>
    let (cat_score, cat_factors, cat_insights) := cat
    ((if cat_factors > 0 then acc.1 + (1/4 : ℚ) * (cat_score / (cat_factors : ℚ)) else acc.1),
     acc.2 ++ cat_insights)
  let folded := categories.foldl step (0, [])
  let total_factors := (categories.map (fun c => c.2.1)).sum
  let total_score := if total_factors = 0 then (1/2 : ℚ) else folded.1
  { score := pyRound total_score 4, insights := folded.2 }

/- ----------------------------------------------------------------
   app/models/domain.py, app/models/request.py, app/models/response.py
   (remaining records used by the orchestrator)
   ---------------------------------------------------------------- -/

structure TechnicalAnalysis where
  rsi : Option ℚ := none
  rsi_interpretation : Option String := none
  sma_50 : Option ℚ := none
  sma_200 : Option ℚ := none
  price_vs_sma50 : Option TrendDirection := none
  price_vs_sma200 : Option TrendDirection := none
  macd_signal : Option MacdSignal := none
  volume_trend : Option VolumeTrend := none
  technical_score : Option ℚ := none
deriving DecidableEq, Repr

structure SentimentAnalysis where
  overall : Option SentimentType := none
  score : Option ℚ := none
  positive_count : ℕ := 0
  negative_count : ℕ := 0
  neutral_count : ℕ := 0
deriving DecidableEq, Repr

structure NewsSource where
  type : String := "news"
  title : String
  source : Option String := none
  url : Option String := none
  sentiment : Option SentimentType := none
  published_at : Option ℤ := none
deriving DecidableEq, Repr

structure PriceData where
  current : Option ℚ := none
  currency : String := "USD"
  change_percent_1d : Option ℚ := none
  change_percent_1w : Option ℚ := none
  change_percent_1m : Option ℚ := none
  high_52w : Option ℚ := none
  low_52w : Option ℚ := none
deriving DecidableEq, Repr

structure AnalysisResult where
  technical : Option TechnicalAnalysis := none
  fundamentals : Option FundamentalAnalysis := none
  sentiment : Option SentimentAnalysis := none
deriving DecidableEq, Repr

structure AnalysisMetadata where
  generated_at : ℤ
  llm_provider : String
  model_used : String
  vectorstore_provider : String
  cached : Bool := false
deriving DecidableEq, Repr

/-- Modelled from the spec: the `AgentResult` class is imported from
`app.models.domain` by the orchestrator and the agent module but its
declaration is absent from the provided sources.  Per the spec's
"neutral/HOLD-equivalent fallback decision" (§4.4 step 6, §7) and the
orchestrator tests' comment "defaults: HOLD, 0.5, ''", its defaults
are signal = HOLD, confidence = 0.5, explanation = "". -/
structure AgentResult where
  signal : SignalType := SignalType.hold
  confidence : ℚ := 1/2
  explanation : String := ""
deriving DecidableEq, Repr

structure AnalyzeRequest where
  ticker : String
  include_technicals : Bool := true
  include_fundamentals : Bool := true
  include_news : Bool := true
deriving DecidableEq, Repr

structure AnalyzeResponse where
  ticker : String
  company_name : Option String := none
  signal : SignalType
  confidence : ℚ
  explanation : String
  analysis : AnalysisResult
  price_data : PriceData
  sources : List NewsSource := []
  metadata : AnalysisMetadata
deriving DecidableEq, Repr

/- ----------------------------------------------------------------
   app/agents/tools/sentiment.py
   ---------------------------------------------------------------- -/

/-- `_NEUTRAL_FALLBACK` from sentiment.py. -/
def _NEUTRAL_FALLBACK : SentimentAnalysis :=
  { overall := some SentimentType.neutral
    score := some (1/2)
    positive_count := 0
    negative_count := 0
    neutral_count := 0 }

/-- `_SENTIMENT_MAP.get(s, SentimentType.NEUTRAL)`. -/
def sentimentFromLabel (s : String) : SentimentType :=
  if s = "positive" then SentimentType.positive
  else if s = "negative" then SentimentType.negative
  else if s = "neutral" then SentimentType.neutral
  else if s = "mixed" then SentimentType.mixed
  else SentimentType.neutral

/-- One entry of the classifier's `"headlines"` JSON array.
`index = none` models a missing or non-integer `"index"` value (both
fail the `isinstance(idx, int)` check identically); `sentiment = none`
models a missing `"sentiment"` key (defaulted to `"neutral"`). -/
structure HeadlineItem where
  index : Option ℤ := none
  sentiment : Option String := none
deriving DecidableEq, Repr

/-- The decoded JSON body of the classifier response.  `score` is
`none` when the `"score"` key is missing; `some none` when it is
present but not a number (`isinstance` check fails). -/
structure SentimentPayload where
  headlines : List HeadlineItem := []
  overall : Option String := none
  score : Option (Option ℚ) := none
deriving DecidableEq, Repr

/-- Outcome of `json.loads(response.content)`: either a parse failure
or a decoded payload. -/
inductive SentimentLLMResponse
  | notJson
  | json (data : SentimentPayload)
deriving DecidableEq, Repr

/-- The per-item body of the classification loop in `analyze_sentiment`,
threading `(updated, positive, negative, neutral)`. -/
def sentimentStep (acc : List NewsSource × ℕ × ℕ × ℕ) (item : HeadlineItem) :
    List NewsSource × ℕ × ℕ × ℕ :=
  let (updated, positive, negative, neutral) := acc
  let raw_sentiment := pyLower (item.sentiment.getD "neutral")
  let sentiment_type := sentimentFromLabel raw_sentiment
  let (positive, negative, neutral) :=
    match sentiment_type with
    | SentimentType.positive => (positive + 1, negative, neutral)
    | SentimentType.negative => (positive, negative + 1, neutral)
    | _ => (positive, negative, neutral + 1)
  let updated :=
    match item.index with
    | none => updated
    | some idx =>
        if 0 ≤ idx ∧ idx.toNat < updated.length then
          match updated.get? idx.toNat with
          | some old => updated.set idx.toNat { old with sentiment := some sentiment_type }
          | none => updated
        else updated
  (updated, positive, negative, neutral)

/-- `analyze_sentiment(headlines)`, with the already-decoded classifier
response passed as an explicit argument (the network call itself is an
external collaborator).  The exception path of the LLM call is handled
at the orchestrator model. -/
def analyze_sentiment (headlines : List NewsSource) (resp : SentimentLLMResponse) :
    SentimentAnalysis × List NewsSource :=
  if headlines.isEmpty then
    (_NEUTRAL_FALLBACK, [])
  else
    match resp with
    | SentimentLLMResponse.notJson => (_NEUTRAL_FALLBACK, headlines)
    | SentimentLLMResponse.json data =>
        let (updated, positive, negative, neutral) :=
          data.headlines.foldl sentimentStep (headlines, 0, 0, 0)
        let overall := sentimentFromLabel (pyLower (data.overall.getD "neutral"))
        let score : ℚ :=
          match data.score with
          | some (some q) => if q < 0 ∨ q > 1 then 1/2 else q
          | _ => 1/2
        ({ overall := some overall
           score := some (pyRound score 4)
           positive_count := positive
           negative_count := negative
           neutral_count := neutral }, updated)

/- ----------------------------------------------------------------
   Heap-level model of analyze_sentiment (for the aliasing/mutation
   behaviour: `updated = list(headlines)` copies the list of object
   references, `model_copy(update=...)` allocates a fresh object, and
   no pre-existing object is ever written to).
   ---------------------------------------------------------------- -/

/-- An arbitrary `NewsSource`, used only as the out-of-bounds default
of total lookups whose indices are proved in bounds. -/
def dummyNews : NewsSource := { title := "" }

/-- One iteration of the classification loop at the heap level.  The
state is `(heap, updated, positive, negative, neutral)` where `heap`
is the object store and `updated` holds object ids.
`updated[idx] = updated[idx].model_copy(update={"sentiment": s})`
allocates a fresh object at the end of the heap and repoints the slot
of the `updated` list (never the caller's list) at it. -/
def sentimentStepHeap (acc : List NewsSource × List ℕ × ℕ × ℕ × ℕ) (item : HeadlineItem) :
    List NewsSource × List ℕ × ℕ × ℕ × ℕ :=
  let (heap, updated, positive, negative, neutral) := acc
  let raw_sentiment := pyLower (item.sentiment.getD "neutral")
  let sentiment_type := sentimentFromLabel raw_sentiment
  let (positive, negative, neutral) :=
    match sentiment_type with
    | SentimentType.positive => (positive + 1, negative, neutral)
    | SentimentType.negative => (positive, negative + 1, neutral)
    | _ => (positive, negative, neutral + 1)
  let (heap, updated) :=
    match item.index with
    | none => (heap, updated)
    | some idx =>
        if 0 ≤ idx ∧ idx.toNat < updated.length then
          let oldId := updated.getD idx.toNat 0
          let old := heap.getD oldId dummyNews
          (heap ++ [{ old with sentiment := some sentiment_type }],
           updated.set idx.toNat heap.length)
        else (heap, updated)
  (heap, updated, positive, negative, neutral)

/-- `analyze_sentiment` at the heap level: `ids` are the caller's
object references; the result carries the final heap, the references
held by the freshly built `updated` list, and the aggregate. -/
def analyze_sentiment_heap (heap : List NewsSource) (ids : List ℕ)
    (resp : SentimentLLMResponse) : List NewsSource × List ℕ × SentimentAnalysis :=
  if ids.isEmpty then
    (heap, [], _NEUTRAL_FALLBACK)
  else
    match resp with
    | SentimentLLMResponse.notJson => (heap, ids, _NEUTRAL_FALLBACK)
    | SentimentLLMResponse.json data =>
        let (heap, updated, positive, negative, neutral) :=
          data.headlines.foldl sentimentStepHeap (heap, ids, 0, 0, 0)
        let overall := sentimentFromLabel (pyLower (data.overall.getD "neutral"))
        let score : ℚ :=
          match data.score with
          | some (some q) => if q < 0 ∨ q > 1 then 1/2 else q
          | _ => 1/2
        (heap, updated,
         { overall := some overall
           score := some (pyRound score 4)
           positive_count := positive
           negative_count := negative
           neutral_count := neutral })

/- ----------------------------------------------------------------
   app/agents/agent.py: _parse_agent_output
   ---------------------------------------------------------------- -/

/-- The agent's final output as seen by `_parse_agent_output`.
`unparsable text` models every input on which `json.loads` raises or
on which `float(parsed.get("confidence", 0.5))` raises
(`JSONDecodeError`/`ValueError`/`TypeError` are all caught together);
`parsed text signal confidence explanation` models a successfully
decoded JSON object, with `confidence` already converted by `float`. -/
inductive AgentOutput
  | unparsable (text : String)
  | parsed (text : String) (signal : Option String) (confidence : Option ℚ)
      (explanation : Option String)
deriving DecidableEq, Repr

/-- `SignalType(signal_str)` with the `except ValueError` fallback. -/
def signalFromString (s : String) : SignalType :=
  if s = "BUY" then SignalType.buy
  else if s = "HOLD" then SignalType.hold
  else if s = "SELL" then SignalType.sell
  else SignalType.hold

/-- `_parse_agent_output(output)`. -/
def _parse_agent_output (output : AgentOutput) : AgentResult :=
  match output with
  | AgentOutput.unparsable text =>
      { explanation := text }
  | AgentOutput.parsed text signal confidence explanation =>
      let signal_str := pyUpper (signal.getD "HOLD")
      let sig := signalFromString signal_str
      let conf := confidence.getD (1/2)
      let conf := max 0 (min 1 conf)
      { signal := sig, confidence := conf, explanation := explanation.getD text }

/- ----------------------------------------------------------------
   app/agents/orchestrator.py: _compute_weighted_confidence
   ---------------------------------------------------------------- -/

/-- `_compute_weighted_confidence(technical, fundamentals, sentiment)`.
The four weight dictionaries `_WEIGHTS_ALL`, `_WEIGHTS_NO_FUNDAMENTAL`,
`_WEIGHTS_NO_SENTIMENT`, `_WEIGHTS_TECHNICAL_ONLY` are inlined into
the branch selected by pillar presence. -/
def _compute_weighted_confidence (technical : Option TechnicalAnalysis)
    (fundamentals : Option FundamentalAnalysis) (sentiment : Option SentimentAnalysis) : ℚ :=
  let tech_score := technical.bind (fun t => t.technical_score)
  let fund_score := fundamentals.bind (fun f => f.fundamental_score)
  let sent_score := sentiment.bind (fun s => s.score)
  match tech_score, fund_score, sent_score with
  | some t, some f, some s =>
      pyRound (max 0 (min 1 ((2/5 : ℚ) * t + (2/5 : ℚ) * f + (1/5 : ℚ) * s))) 4
  | some t, some f, none =>
      pyRound (max 0 (min 1 ((3/5 : ℚ) * t + (2/5 : ℚ) * f))) 4
  | some t, none, some s =>
      pyRound (max 0 (min 1 ((7/10 : ℚ) * t + (3/10 : ℚ) * s))) 4
  | some t, none, none =>
      pyRound (max 0 (min 1 ((1 : ℚ) * t))) 4
  | none, _, _ => 1/2

/- ----------------------------------------------------------------
   app/services/cache.py
   ---------------------------------------------------------------- -/

/-- The cache dictionary, as an association list with the most recent
binding first (the TTL/maxsize eviction of `cachetools.TTLCache` is
idealised to a single time window below capacity). -/
def Cache := List (String × AnalyzeResponse)

/-- `get_cached(ticker)`. -/
def get_cached (cache : Cache) (ticker : String) : Option AnalyzeResponse :=
  (List.find? (fun p => p.1 = pyUpper ticker) cache).map (fun p => p.2)

/-- `set_cached(ticker, result)`. -/
def set_cached (cache : Cache) (ticker : String) (result : AnalyzeResponse) : Cache :=
  (pyUpper ticker, result) :: cache

/- ----------------------------------------------------------------
   app/services/limiter.py
   ---------------------------------------------------------------- -/

/-- The per-IP counter `_uncached_counter`, within one 60-second
window (the TTL expiry is idealised away: every request in a claim's
scenario falls inside one window). -/
def Counter := String → ℕ

def updateCounter (c : Counter) (ip : String) (v : ℕ) : Counter :=
  fun x => if x = ip then v else c x

/-- `check_uncached_rate_limit(request)`: increments the caller's
counter and reports whether HTTP 429 is raised
(`count > _UNCACHED_LIMIT_PER_MIN` with the limit 5). -/
def check_uncached_rate_limit (c : Counter) (ip : String) : Counter × Bool :=
  let count := c ip + 1
  (updateCounter c ip count, count > 5)

/-- Modelled from the spec: `refund_uncached_rate_limit` is imported
by `api/routes/analysis.py` from `app.services.limiter` but its
declaration is absent from the provided sources.  Per the spec
(§3 RateLimitCounter: "decremented (\x22refunded\x22) if the request later
turns out to be a benign user error"), it decrements the caller's
window counter by one. -/
def refund_uncached_rate_limit (c : Counter) (ip : String) : Counter :=
  updateCounter c ip (c ip - 1)

/- ----------------------------------------------------------------
   app/agents/orchestrator.py: StockAnalysisOrchestrator.analyze
   ---------------------------------------------------------------- -/

/-- The behaviour of the sentiment classifier call for one request:
the LLM call either raises (any exception — caught by the orchestrator)
or yields a response body. -/
inductive ClassifierBehavior
  | raises
  | responds (resp : SentimentLLMResponse)
deriving DecidableEq, Repr

/-- The behaviour of `run_agent` for one request: it raises
`LLMRateLimitError`, raises any other exception, or completes with a
final output that `_parse_agent_output` decodes. -/
inductive AgentBehavior
  | rateLimited
  | fails
  | outputs (out : AgentOutput)
deriving DecidableEq, Repr

/-- The outside world of one `analyze` call: the results of the
parallel fetch tasks (each `none` models a task whose domain-level or
unexpected failure was caught and degraded to `None`), the classifier
and the reasoning agent, plus the metadata inputs. -/
structure Env where
  price : Option PriceData
  companyName : Option String
  technicals : Option TechnicalAnalysis
  fundamentals : Option FundamentalAnalysis
  news : Option (List NewsSource)
  classifier : ClassifierBehavior
  agent : AgentBehavior
  now : ℤ
  llm_provider : String := "openai"
  model_used : String := "gpt-4o-mini"
  vectorstore_provider : String := "pinecone"
deriving DecidableEq, Repr

/-- The two exception classes that escape `analyze`:
`ValueError` for a missing price (mapped to 404 by the route) and
`LLMRateLimitError` (mapped to 429). -/
inductive OrchError
  | notFound (detail : String)
  | llmRateLimit
deriving DecidableEq, Repr

/-- `result.metadata.cached = True` applied to the deep copy made on
a cache hit. -/
def markCached (r : AnalyzeResponse) : AnalyzeResponse :=
  { r with metadata := { r.metadata with cached := true } }

/-- The fixed fallback explanation of orchestrator.py step 5. -/
def fallbackExplanation : String :=
  "Signal analysis temporarily unavailable. Technical and fundamental data are shown below."

/-- Step 5 of `analyze`: run the agent, propagating only
`LLMRateLimitError` and degrading every other failure to the fallback
`AgentResult`. -/
def agentStep (b : AgentBehavior) : Except OrchError AgentResult :=
  match b with
  | AgentBehavior.rateLimited => Except.error OrchError.llmRateLimit
  | AgentBehavior.fails => Except.ok { explanation := fallbackExplanation }
  | AgentBehavior.outputs out => Except.ok (_parse_agent_output out)

/-- `StockAnalysisOrchestrator.analyze(request)`: cache check, gather,
mandatory price, sentiment, agent, confidence fusion, assembly, cache
store.  Returns the response or the escaping exception, together with
the cache after the call. -/
def analyze (env : Env) (request : AnalyzeRequest) (cache : Cache) :
    Except OrchError AnalyzeResponse × Cache :=
  let ticker := pyUpper request.ticker
  match get_cached cache ticker with
  | some c => (Except.ok (markCached c), cache)
  | none =>
    let price_data := env.price
    let company_name := env.companyName
    let technicals := if request.include_technicals then env.technicals else none
    let fundamentals := if request.include_fundamentals then env.fundamentals else none
    let headlines0 := if request.include_news then env.news else none
    match price_data with
    | none =>
        (Except.error (OrchError.notFound
          ("Ticker '" ++ ticker ++ "' not found. Verify the symbol and try again.")), cache)
    | some price =>
        let hs := headlines0.getD []
        let (sentiment, headlines) :=
          if hs.isEmpty then ((none : Option SentimentAnalysis), hs)
          else
            match env.classifier with
            | ClassifierBehavior.raises => (none, hs)
            | ClassifierBehavior.responds resp =>
                let (sa, upd) := analyze_sentiment hs resp
                (some sa, upd)
        match agentStep env.agent with
        | Except.error e => (Except.error e, cache)
        | Except.ok agent_result =>
            let confidence := _compute_weighted_confidence technicals fundamentals sentiment
            let response : AnalyzeResponse :=
              { ticker := ticker
                company_name := company_name
                signal := agent_result.signal
                confidence := confidence
                explanation := agent_result.explanation
                analysis :=
                  { technical := technicals
                    fundamentals := fundamentals
                    sentiment := sentiment }
                price_data := price
                sources := headlines
                metadata :=
                  { generated_at := env.now
                    llm_provider := env.llm_provider
                    model_used := env.model_used
                    vectorstore_provider := env.vectorstore_provider
                    cached := false } }
            (Except.ok response, set_cached cache ticker response)

/- ----------------------------------------------------------------
   app/api/routes/analysis.py: analyze_stock
   ---------------------------------------------------------------- -/

inductive HttpError
  | status404 (detail : String)
  | status429 (detail : String)
deriving DecidableEq, Repr

/-- `analyze_stock(request, body)`: cached short-circuit, rate-limit
check on the uncached path, orchestration, and the error mapping with
the rate-limit refund on `ValueError` (ticker not found). -/
def analyze_stock (env : Env) (ip : String) (body : AnalyzeRequest)
    (cache : Cache) (counter : Counter) :
    Except HttpError AnalyzeResponse × Cache × Counter :=
  match get_cached cache (pyUpper body.ticker) with
  | some cachedResp => (Except.ok (markCached cachedResp), cache, counter)
  | none =>
    let (counter, rejected) := check_uncached_rate_limit counter ip
    if rejected then
      (Except.error (HttpError.status429
        "Rate limit exceeded. Please wait a minute before requesting a new analysis."),
       cache, counter)
    else
      match analyze env body cache with
      | (Except.ok r, cache) => (Except.ok r, cache, counter)
      | (Except.error (OrchError.notFound detail), cache) =>
          (Except.error (HttpError.status404 detail), cache,
           refund_uncached_rate_limit counter ip)
      | (Except.error OrchError.llmRateLimit, cache) =>
          (Except.error (HttpError.status429
            "LLM provider rate limit exceeded. Please try again later."), cache, counter)

/- ----------------------------------------------------------------
   Spec-side definitions (written from the specification's words, to
   be compared with the source-side definitions above).
   ---------------------------------------------------------------- -/

/-- Confidence fusion as the spec states it: a weight set selected by
which pillar scores are present (0.40/0.40/0.20, 0.70/–/0.30,
0.60/0.40/–, 1.00/–/–), the weighted sum over present pillars clamped
to [0,1] and rounded to 4 decimal places, and the neutral constant 0.5
whenever the technical score is absent. -/
def fusedConfidenceSpec (tech fund sent : Option ℚ) : ℚ :=
  match tech with
  | none => 1/2
  | some t =>
      let w : ℚ × ℚ × ℚ :=
        match fund, sent with
        | some _, some _ => (2/5, 2/5, 1/5)
        | none, some _ => (7/10, 0, 3/10)
        | some _, none => (3/5, 2/5, 0)
        | none, none => (1, 0, 0)
      pyRound (max 0 (min 1 (w.1 * t + w.2.1 * fund.getD 0 + w.2.2 * sent.getD 0))) 4

/-- RSI contribution to the composite technical score. -/
def rsiContribution (rsi : Option ℚ) : ℚ :=
  match rsi with
  | none => 0
  | some r =>
      if r < 30 then (1/4 : ℚ)
      else if r > 70 then 0
      else (1/4 : ℚ) * (1 - (r - 30) / 40)

/-- MACD contribution to the composite technical score. -/
def macdContribution (macd_signal : MacdSignal) : ℚ :=
  match macd_signal with
  | MacdSignal.bullish => (1/4 : ℚ)
  | MacdSignal.neutral => (1/8 : ℚ)
  | MacdSignal.bearish => 0

/-- Price-vs-SMA contribution to the composite technical score, at
weight `w` (0.20 for both SMA components). -/
def smaContribution (d : Option TrendDirection) : ℚ :=
  if d = some TrendDirection.above then (1/5 : ℚ) else 0

/-- Volume contribution to the composite technical score. -/
def volumeContribution (volume_trend : VolumeTrend) : ℚ :=
  match volume_trend with
  | VolumeTrend.high => (1/10 : ℚ)
  | VolumeTrend.neutral => (1/20 : ℚ)
  | VolumeTrend.low => 0

/-- The contribution of one scoring category
`(raw_score, metric_count, insights)` to the fundamental score, as the
spec states it: `0.25 * (raw / count)` when at least one metric is
present, nothing otherwise. -/
def categoryContribution (cat : ℚ × ℕ × List String) : ℚ :=
  if 0 < cat.2.1 then (1/4 : ℚ) * (cat.1 / (cat.2.1 : ℚ)) else 0

/-- The spec's fundamental-score sum: Σ over categories with ≥ 1
present metric of `0.25 * (category_raw_score / category_metric_count)`. -/
def fundamentalSpecSum (m : FundamentalAnalysis) : ℚ :=
  categoryContribution (_score_valuation m) +
  categoryContribution (_score_profitability m) +
  categoryContribution (_score_growth m) +
  categoryContribution (_score_financial_health m)

/-- Total number of scored metrics present across the four categories. -/
def totalScoredFactors (m : FundamentalAnalysis) : ℕ :=
  (_score_valuation m).2.1 + (_score_profitability m).2.1 +
  (_score_growth m).2.1 + (_score_financial_health m).2.1

/- ----------------------------------------------------------------
   Theorems
   ---------------------------------------------------------------- -/

/-- C1: the fused confidence equals the presence-selected weighted sum
of the pillar scores (all three present: 0.40/0.40/0.20;
technical+sentiment: 0.70/0.30; technical+fundamental: 0.60/0.40;
technical only: 1.00), clamped to [0,1] and rounded to 4 decimal
places; whenever the technical pillar or its score is absent the
result is exactly the neutral constant 0.5; and the worked example
(technical 0.70, fundamental 0.60, sentiment 0.55) yields exactly
0.63. -/
theorem C1_confidence_fusion :
    (∀ (technical : Option TechnicalAnalysis) (fundamentals : Option FundamentalAnalysis)
        (sentiment : Option SentimentAnalysis),
      _compute_weighted_confidence technical fundamentals sentiment =
        fusedConfidenceSpec (technical.bind (fun t => t.technical_score))
          (fundamentals.bind (fun f => f.fundamental_score))
          (sentiment.bind (fun s => s.score))) ∧
    (∀ (fundamentals : Option FundamentalAnalysis) (sentiment : Option SentimentAnalysis),
      _compute_weighted_confidence none fundamentals sentiment = 1/2) ∧
    (∀ (t : TechnicalAnalysis) (fundamentals : Option FundamentalAnalysis)
        (sentiment : Option SentimentAnalysis),
      _compute_weighted_confidence (some { t with technical_score := none })
        fundamentals sentiment = 1/2) ∧
    _compute_weighted_confidence (some { technical_score := some (7/10) })
      (some { fundamental_score := some (3/5) }) (some { score := some (11/20) })
      = 63/100 := by
  refine ⟨?_, ?_, ?_, ?_⟩
  · intro technical fundamentals sentiment
    unfold _compute_weighted_confidence fusedConfidenceSpec
    rcases ht : technical.bind (fun t => t.technical_score) with _ | ts <;>
      rcases hf : fundamentals.bind (fun f => f.fundamental_score) with _ | fs <;>
      rcases hs : sentiment.bind (fun s => s.score) with _ | ss <;>
      simp [ht, hf, hs]
  · intro fundamentals sentiment
    rfl
  · intro t fundamentals sentiment
    rfl
  · simp only [_compute_weighted_confidence, pyRound, roundHalfEven, Option.bind]
    norm_num [min_def, max_def, Int.floor_eq_iff]

/-- C3 counterexample: the claim says every absent indicator
contributes exactly zero, but with RSI and both SMA flags absent, an
absent MACD line (interpreted as NEUTRAL) and a volume trend computed
from insufficient history (NEUTRAL) the composite score is 0.175, not
0: the NEUTRAL MACD signal contributes 0.125 and the NEUTRAL volume
trend 0.05. -/
theorem C3_counterexample :
    calculate_technical_score none (interpret_macd none none) none none
      (assess_volume_trend [] 20) = 7/40 ∧ (7/40 : ℚ) ≠ 0 := by
  constructor
  · simp only [calculate_technical_score, interpret_macd, assess_volume_trend, pyRound,
      roundHalfEven, List.length_nil, reduceCtorEq, if_false]
    norm_num [Int.floor_eq_iff]
  · norm_num

/-- C3 (amended): the composite technical score decomposes into fixed
per-indicator contributions with no renormalization; a missing RSI and
a missing price-vs-SMA flag contribute exactly zero, while an absent
MACD line is interpreted as the NEUTRAL signal contributing 0.125 and
a volume trend with insufficient history is NEUTRAL contributing 0.05. -/
theorem C3_missing_indicator_policy :
    (∀ (rsi : Option ℚ) (m : MacdSignal) (p50 p200 : Option TrendDirection)
        (vt : VolumeTrend),
      calculate_technical_score rsi m p50 p200 vt =
        pyRound (rsiContribution rsi + macdContribution m + smaContribution p50 +
          smaContribution p200 + volumeContribution vt) 4) ∧
    rsiContribution none = 0 ∧
    smaContribution none = 0 ∧
    interpret_macd none none = MacdSignal.neutral ∧
    macdContribution MacdSignal.neutral = 1/8 ∧
    (∀ volumes : List ℚ, volumes.length < 21 →
      assess_volume_trend volumes 20 = VolumeTrend.neutral) ∧
    volumeContribution VolumeTrend.neutral = 1/20 := by
  refine ⟨?_, rfl, rfl, rfl, rfl, ?_, rfl⟩
  · intro rsi m p50 p200 vt
    unfold calculate_technical_score rsiContribution macdContribution smaContribution
      volumeContribution
    cases rsi <;> cases m <;> cases vt <;> simp
  · intro volumes h
    unfold assess_volume_trend
    rw [if_pos h]

/-- C3 witness: the insufficient-history hypothesis of the amended
theorem discharged at the empty volume series. -/
theorem C3_missing_indicator_policy_witness :
    ([] : List ℚ).length < 21 ∧ assess_volume_trend [] 20 = VolumeTrend.neutral :=
  ⟨by decide, C3_missing_indicator_policy.2.2.2.2.2.1 [] (by decide)⟩

lemma valuation_insights_nil (m : FundamentalAnalysis)
    (h : (_score_valuation m).2.1 = 0) : (_score_valuation m).2.2 = [] := by
  rcases hpe : m.pe_ratio with _ | pe <;> rcases hpeg : m.peg_ratio with _ | peg <;>
    simp only [_score_valuation, hpe, hpeg] at h ⊢ <;>
    (try split_ifs at h ⊢) <;> simp_all

lemma profitability_insights_nil (m : FundamentalAnalysis)
    (h : (_score_profitability m).2.1 = 0) : (_score_profitability m).2.2 = [] := by
  rcases hpm : m.profit_margin with _ | pm <;> rcases hroe : m.return_on_equity with _ | roe <;>
    simp only [_score_profitability, hpm, hroe] at h ⊢ <;>
    (try split_ifs at h ⊢) <;> simp_all

lemma growth_insights_nil (m : FundamentalAnalysis)
    (h : (_score_growth m).2.1 = 0) : (_score_growth m).2.2 = [] := by
  rcases hrg : m.revenue_growth with _ | rg <;> rcases heg : m.earnings_growth with _ | eg <;>
    simp only [_score_growth, hrg, heg] at h ⊢ <;>
    (try split_ifs at h ⊢) <;> simp_all

lemma financial_health_insights_nil (m : FundamentalAnalysis)
    (h : (_score_financial_health m).2.1 = 0) : (_score_financial_health m).2.2 = [] := by
  rcases hde : m.debt_to_equity with _ | de <;> rcases hcr : m.current_ratio with _ | cr <;>
    rcases hfcf : m.free_cash_flow with _ | fcf <;>
    simp only [_score_financial_health, hde, hcr, hfcf] at h ⊢ <;>
    (try split_ifs at h ⊢) <;> simp_all

lemma interpret_fundamentals_decompose (m : FundamentalAnalysis) :
    (interpret_fundamentals m).score =
      pyRound (if totalScoredFactors m = 0 then 1/2 else fundamentalSpecSum m) 4 ∧
    (interpret_fundamentals m).insights =
      (_score_valuation m).2.2 ++ (_score_profitability m).2.2 ++
      (_score_growth m).2.2 ++ (_score_financial_health m).2.2 := by
  rcases hv : _score_valuation m with ⟨vs, vf, vi⟩
  rcases hp : _score_profitability m with ⟨ps, pf, pi⟩
  rcases hg : _score_growth m with ⟨gs, gf, gi⟩
  rcases hh : _score_financial_health m with ⟨hs, hf, hi⟩
  constructor
  · simp only [interpret_fundamentals, fundamentalSpecSum, totalScoredFactors,
      categoryContribution, hv, hp, hg, hh, List.foldl, List.map, List.sum_cons,
      List.sum_nil]
    split_ifs <;> first | omega | rfl | (congr 1; ring)
  · simp [interpret_fundamentals, hv, hp, hg, hh]

/-- C4 counterexample: the claim states the fundamental score EQUALS
Σ over categories with ≥ 1 present metric of
`0.25 * (category_raw_score / category_metric_count)`, but the code
rounds that sum to 4 decimal places: with only a P/E of 16 present the
sum is `0.25 * (1 - 1/15) = 7/30 = 0.2333…`, while the returned score
is the rounded `0.2333`. -/
theorem C4_counterexample :
    fundamentalSpecSum { pe_ratio := some 16 } = 7/30 ∧
    (interpret_fundamentals { pe_ratio := some 16 }).score = 2333/10000 ∧
    (interpret_fundamentals { pe_ratio := some 16 }).score ≠
      fundamentalSpecSum { pe_ratio := some 16 } := by
  have h1 : fundamentalSpecSum { pe_ratio := some 16 } = 7/30 := by
    simp only [fundamentalSpecSum, categoryContribution, _score_valuation,
      _score_profitability, _score_growth, _score_financial_health]
    norm_num
  have h2 : (interpret_fundamentals { pe_ratio := some 16 }).score = 2333/10000 := by
    simp only [interpret_fundamentals, _score_valuation, _score_profitability,
      _score_growth, _score_financial_health, List.foldl, List.map, List.sum_cons,
      List.sum_nil, pyRound, roundHalfEven]
    norm_num [Int.floor_eq_iff]
  refine ⟨h1, h2, ?_⟩
  rw [h1, h2]
  norm_num

/-- C4 (amended): the fundamental score equals the spec's per-category
sum ROUNDED TO 4 DECIMAL PLACES (or 0.5 when no scored metric is
present); with zero populated metrics the score is exactly 0.5 and the
insights list is empty; and insights are always concatenated in
valuation → profitability → growth → financial-health order. -/
theorem C4_fundamental_score :
    (∀ m : FundamentalAnalysis,
      (interpret_fundamentals m).score =
        pyRound (if totalScoredFactors m = 0 then 1/2 else fundamentalSpecSum m) 4) ∧
    (∀ m : FundamentalAnalysis, totalScoredFactors m = 0 →
      (interpret_fundamentals m).score = 1/2 ∧ (interpret_fundamentals m).insights = []) ∧
    (∀ m : FundamentalAnalysis,
      (interpret_fundamentals m).insights =
        (_score_valuation m).2.2 ++ (_score_profitability m).2.2 ++
        (_score_growth m).2.2 ++ (_score_financial_health m).2.2) := by
  refine ⟨fun m => (interpret_fundamentals_decompose m).1, ?_,
    fun m => (interpret_fundamentals_decompose m).2⟩
  intro m h
  constructor
  · rw [(interpret_fundamentals_decompose m).1, if_pos h]
    simp only [pyRound, roundHalfEven]
    norm_num [Int.floor_eq_iff]
  · rw [(interpret_fundamentals_decompose m).2]
    have h1 : (_score_valuation m).2.1 = 0 := by
      unfold totalScoredFactors at h; omega
    have h2 : (_score_profitability m).2.1 = 0 := by
      unfold totalScoredFactors at h; omega
    have h3 : (_score_growth m).2.1 = 0 := by
      unfold totalScoredFactors at h; omega
    have h4 : (_score_financial_health m).2.1 = 0 := by
      unfold totalScoredFactors at h; omega
    rw [valuation_insights_nil m h1, profitability_insights_nil m h2,
      growth_insights_nil m h3, financial_health_insights_nil m h4]
    rfl

/-- C4 witness: the zero-populated-metrics hypothesis of the amended
theorem discharged at the all-absent metrics record. -/
theorem C4_fundamental_score_witness :
    totalScoredFactors {} = 0 ∧
    (interpret_fundamentals ({} : FundamentalAnalysis)).score = 1/2 ∧
    (interpret_fundamentals ({} : FundamentalAnalysis)).insights = [] :=
  ⟨rfl, C4_fundamental_score.2.1 {} rfl⟩

lemma priceDeltas_pos : ∀ (prices : List ℚ), List.Chain' (· < ·) prices →
    ∀ d ∈ priceDeltas prices, 0 < d := by
  intro prices
  induction prices with
  | nil => intro _ d hd; simp [priceDeltas] at hd
  | cons a rest ih =>
    intro h d hd
    cases rest with
    | nil => simp [priceDeltas] at hd
    | cons b t =>
      rw [List.chain'_cons] at h
      simp only [priceDeltas, List.tail_cons, List.zipWith_cons_cons,
        List.mem_cons] at hd
      rcases hd with hd | hd
      · simpa [hd] using h.1
      · exact ih h.2 d hd

lemma wilderSmooth_zero (p : ℕ) : ∀ (l : List ℚ), (∀ x ∈ l, x = 0) →
    wilderSmooth p 0 l = 0 := by
  intro l
  induction l with
  | nil => intro _; rfl
  | cons a t ih =>
    intro h
    have ha : a = 0 := h a (by simp)
    simpa [wilderSmooth, ha] using ih (fun x hx => h x (by simp [hx]))

lemma rsiAvgLoss_zero (prices : List ℚ) (h : List.Chain' (· < ·) prices) :
    rsiAvgLoss prices 14 = 0 := by
  set losses := (priceDeltas prices).map (fun d => max 0 (-d)) with hl
  have hz : ∀ x ∈ losses, x = 0 := by
    intro x hx
    rw [hl, List.mem_map] at hx
    obtain ⟨d, hd, hxd⟩ := hx
    have := priceDeltas_pos prices h d hd
    rw [← hxd]
    simp only [max_eq_left_iff]
    linarith
  have hseed : ((losses.take 14).sum) / (14 : ℚ) = 0 := by
    have : (losses.take 14).sum = 0 :=
      List.sum_eq_zero (fun x hx => hz x (List.mem_of_mem_take hx))
    rw [this]; norm_num
  unfold rsiAvgLoss
  rw [← hl]
  push_cast
  rw [hseed]
  exact wilderSmooth_zero 14 _ (fun x hx => hz x (List.mem_of_mem_drop hx))

/-- C5: with fewer than period+1 = 15 price points the RSI is absent;
for a strictly increasing series of length ≥ 15 the Wilder average
loss is exactly zero and the RSI is 100. -/
theorem C5_rsi :
    (∀ prices : List ℚ, prices.length < 15 → calculate_rsi prices = none) ∧
    (∀ prices : List ℚ, List.Chain' (· < ·) prices → 15 ≤ prices.length →
      rsiAvgLoss prices 14 = 0 ∧ calculate_rsi prices = some 100) := by
  constructor
  · intro prices h
    unfold calculate_rsi
    rw [if_pos h]
  · intro prices hchain hlen
    have hloss := rsiAvgLoss_zero prices hchain
    refine ⟨hloss, ?_⟩
    unfold calculate_rsi
    rw [if_neg (by omega), if_pos hloss]

/-- C5 witness: both hypotheses discharged at a short series and at a
concrete strictly increasing 15-point series. -/
theorem C5_rsi_witness :
    (([1, 2, 3] : List ℚ).length < 15 ∧ calculate_rsi ([1, 2, 3] : List ℚ) = none) ∧
    (List.Chain' (· < ·) ([1, 2, 3, 4, 5, 6, 7, 8, 9, 10, 11, 12, 13, 14, 15] : List ℚ) ∧
      15 ≤ ([1, 2, 3, 4, 5, 6, 7, 8, 9, 10, 11, 12, 13, 14, 15] : List ℚ).length ∧
      calculate_rsi ([1, 2, 3, 4, 5, 6, 7, 8, 9, 10, 11, 12, 13, 14, 15] : List ℚ)
        = some 100) := by
  have hchain : List.Chain' (· < ·)
      ([1, 2, 3, 4, 5, 6, 7, 8, 9, 10, 11, 12, 13, 14, 15] : List ℚ) := by
    simp only [List.chain'_cons, List.chain'_singleton, and_true]
    decide
  exact ⟨⟨by decide, C5_rsi.1 [1, 2, 3] (by decide)⟩,
    hchain, by decide,
    (C5_rsi.2 [1, 2, 3, 4, 5, 6, 7, 8, 9, 10, 11, 12, 13, 14, 15] hchain (by decide)).2⟩

/-- The counter after `n` successive `check_uncached_rate_limit` calls
from one client. -/
def checksAfter (c : Counter) (ip : String) : ℕ → Counter
  | 0 => c
  | n + 1 => (check_uncached_rate_limit (checksAfter c ip n) ip).1

lemma checksAfter_count (c : Counter) (ip : String) :
    ∀ n, checksAfter c ip n ip = c ip + n := by
  intro n
  induction n with
  | zero => rfl
  | succ k ih =>
    show updateCounter (checksAfter c ip k) ip (checksAfter c ip k ip + 1) ip = c ip + (k + 1)
    rw [updateCounter, if_pos rfl, ih]
    omega

lemma refund_check (c : Counter) (ip : String) :
    refund_uncached_rate_limit (check_uncached_rate_limit c ip).1 ip = c := by
  funext x
  simp only [refund_uncached_rate_limit, check_uncached_rate_limit, updateCounter]
  by_cases h : x = ip <;> simp [h]

/-- C2: from a fresh window, each of the first 5 uncached checks
passes and the 6th raises HTTP 429; refunding a checked request
restores the counter exactly; and at the route level a request whose
price lookup fails (NotFound) leaves the counter unchanged — the
refunded slot does not count toward the limit. -/
theorem C2_rate_limiter :
    (∀ (c : Counter) (ip : String), c ip = 0 →
      (∀ n, n < 5 → (check_uncached_rate_limit (checksAfter c ip n) ip).2 = false) ∧
      (check_uncached_rate_limit (checksAfter c ip 5) ip).2 = true) ∧
    (∀ (c : Counter) (ip : String),
      refund_uncached_rate_limit (check_uncached_rate_limit c ip).1 ip = c) ∧
    (∀ (env : Env) (ip : String) (body : AnalyzeRequest) (cache : Cache) (counter : Counter),
      env.price = none → get_cached cache (pyUpper body.ticker) = none → counter ip < 5 →
      (analyze_stock env ip body cache counter).2.2 = counter ∧
      (analyze_stock env ip body cache counter).1 =
        Except.error (HttpError.status404
          ("Ticker '" ++ pyUpper body.ticker ++ "' not found. Verify the symbol and try again."))) := by
  refine ⟨?_, refund_check, ?_⟩
  · intro c ip h0
    constructor
    · intro n hn
      simp only [check_uncached_rate_limit, checksAfter_count, h0]
      simp only [decide_eq_false_iff_not]
      omega
    · simp only [check_uncached_rate_limit, checksAfter_count, h0]
      simp only [decide_eq_true_eq]
      omega
  · intro env ip body cache counter hprice hmiss hlim
    have hrej : (check_uncached_rate_limit counter ip).2 = false := by
      simp only [check_uncached_rate_limit, decide_eq_false_iff_not]
      omega
    have hcheck1 : (check_uncached_rate_limit counter ip).1 =
        updateCounter counter ip (counter ip + 1) := rfl
    have hana : analyze env body cache =
        (Except.error (OrchError.notFound
          ("Ticker '" ++ pyUpper body.ticker ++ "' not found. Verify the symbol and try again.")),
         cache) := by
      simp only [analyze, hmiss, hprice]
    constructor
    · simp only [analyze_stock, hmiss, hrej, hcheck1, hana]
      simp only [Bool.false_eq_true, if_false]
      exact refund_check counter ip
    · simp only [analyze_stock, hmiss, hrej, hcheck1, hana]
      simp

/-- C2 witness: the fresh-window and NotFound-refund hypotheses
discharged at a concrete client and an environment whose price fetch
yields nothing. -/
theorem C2_rate_limiter_witness :
    (((fun _ => 0 : Counter) "203.0.113.7" = 0) ∧
      (check_uncached_rate_limit
        (checksAfter (fun _ => 0) "203.0.113.7" 5) "203.0.113.7").2 = true) ∧
    (({ price := none, companyName := none, technicals := none, fundamentals := none,
        news := none, classifier := ClassifierBehavior.raises,
        agent := AgentBehavior.fails, now := 0 } : Env).price = none ∧
      get_cached ([] : Cache) (pyUpper "ZZZZ") = none ∧
      (fun _ => 0 : Counter) "203.0.113.7" < 5 ∧
      (analyze_stock
        { price := none, companyName := none, technicals := none, fundamentals := none,
          news := none, classifier := ClassifierBehavior.raises,
          agent := AgentBehavior.fails, now := 0 }
        "203.0.113.7" { ticker := "ZZZZ" } [] (fun _ => 0)).2.2 = (fun _ => 0)) :=
  ⟨⟨rfl, (C2_rate_limiter.1 (fun _ => 0) "203.0.113.7" rfl).2⟩,
    rfl, rfl, by decide,
    (C2_rate_limiter.2.2
      { price := none, companyName := none, technicals := none, fundamentals := none,
        news := none, classifier := ClassifierBehavior.raises,
        agent := AgentBehavior.fails, now := 0 }
      "203.0.113.7" { ticker := "ZZZZ" } [] (fun _ => 0) rfl rfl (by decide)).1⟩

/-- C6: after storing a result under "AAPL", an analyze call for
"aapl" returns that same entry as a copy whose cached flag is true,
while the cache still holds the entry with its stored flag untouched
(the flag is flipped only on the retrieval copy, never on store). -/
theorem C6_cache_round_trip :
    ∀ (env : Env) (cache : Cache) (r : AnalyzeResponse) (inc_t inc_f inc_n : Bool),
      analyze env
        { ticker := "aapl", include_technicals := inc_t, include_fundamentals := inc_f,
          include_news := inc_n }
        (set_cached cache "AAPL" r) =
        (Except.ok (markCached r), set_cached cache "AAPL" r) ∧
      (markCached r).metadata.cached = true ∧
      get_cached (set_cached cache "AAPL" r) "aapl" = some r ∧
      (get_cached (set_cached cache "AAPL" r) "aapl").map (fun e => e.metadata.cached) =
        some r.metadata.cached := by
  intro env cache r inc_t inc_f inc_n
  have e1 : pyUpper "AAPL" = "AAPL" := rfl
  have e2 : pyUpper "aapl" = "AAPL" := rfl
  have hget : get_cached (set_cached cache "AAPL" r) "aapl" = some r := by
    simp [get_cached, set_cached, e1, e2, List.find?]
  refine ⟨?_, rfl, hget, by rw [hget]; rfl⟩
  have hget2 : get_cached (set_cached cache "AAPL" r) "AAPL" = some r := by
    simp [get_cached, set_cached, e1, List.find?]
  simp only [analyze, e2, hget2]

/-- C7: when the price fetch yields nothing and the ticker is not
cached, analyze fails with the NotFound-class error and the cache is
left exactly as it was (no entry is created); conversely, with a price
present and the reasoning collaborator not rate-limited the request
always completes regardless of the other pillars — price is the only
pillar whose absence is fatal. -/
theorem C7_price_not_found :
    (∀ (env : Env) (request : AnalyzeRequest) (cache : Cache),
      env.price = none → get_cached cache (pyUpper request.ticker) = none →
      analyze env request cache =
        (Except.error (OrchError.notFound
          ("Ticker '" ++ pyUpper request.ticker ++ "' not found. Verify the symbol and try again.")),
         cache)) ∧
    (∀ (env : Env) (request : AnalyzeRequest) (cache : Cache) (p : PriceData),
      env.price = some p → env.agent ≠ AgentBehavior.rateLimited →
      get_cached cache (pyUpper request.ticker) = none →
      ∃ res, analyze env request cache =
        (Except.ok res, set_cached cache (pyUpper request.ticker) res)) := by
  constructor
  · intro env request cache hprice hmiss
    simp only [analyze, hmiss, hprice]
  · intro env request cache p hprice hagent hmiss
    rcases hag : env.agent with _ | _ | out
    · exact absurd hag hagent
    · simp only [analyze, hmiss, hprice, hag, agentStep]
      exact ⟨_, rfl⟩
    · simp only [analyze, hmiss, hprice, hag, agentStep]
      exact ⟨_, rfl⟩

/-- C7 witness: both conjuncts instantiated at concrete environments —
one with no price data, one with price present, absent pillars and a
failing (non-rate-limited) reasoning collaborator. -/
theorem C7_price_not_found_witness :
    (({ price := none, companyName := none, technicals := none, fundamentals := none,
        news := none, classifier := ClassifierBehavior.raises,
        agent := AgentBehavior.fails, now := 0 } : Env).price = none ∧
      get_cached ([] : Cache) (pyUpper "ZZZZ") = none ∧
      analyze
        { price := none, companyName := none, technicals := none, fundamentals := none,
          news := none, classifier := ClassifierBehavior.raises,
          agent := AgentBehavior.fails, now := 0 }
        { ticker := "ZZZZ" } [] =
        (Except.error (OrchError.notFound
          ("Ticker '" ++ pyUpper "ZZZZ" ++ "' not found. Verify the symbol and try again.")),
         ([] : Cache))) ∧
    (({ price := some {}, companyName := none, technicals := none, fundamentals := none,
        news := none, classifier := ClassifierBehavior.raises,
        agent := AgentBehavior.fails, now := 0 } : Env).agent ≠ AgentBehavior.rateLimited ∧
      ∃ res, analyze
        { price := some {}, companyName := none, technicals := none, fundamentals := none,
          news := none, classifier := ClassifierBehavior.raises,
          agent := AgentBehavior.fails, now := 0 }
        { ticker := "ZZZZ" } [] =
        (Except.ok res, set_cached [] (pyUpper "ZZZZ") res)) :=
  ⟨⟨rfl, rfl,
    C7_price_not_found.1
      { price := none, companyName := none, technicals := none, fundamentals := none,
        news := none, classifier := ClassifierBehavior.raises,
        agent := AgentBehavior.fails, now := 0 }
      { ticker := "ZZZZ" } [] rfl rfl⟩,
   by decide,
   C7_price_not_found.2
     { price := some {}, companyName := none, technicals := none, fundamentals := none,
       news := none, classifier := ClassifierBehavior.raises,
       agent := AgentBehavior.fails, now := 0 }
     { ticker := "ZZZZ" } [] {} rfl (by decide) rfl⟩

/-- C8 counterexample: when the reasoning output cannot be parsed, the
resulting decision is HOLD-equivalent but its explanation is the raw
agent output itself — two different malformed outputs yield two
different explanations, and neither equals the orchestrator's fixed
fallback message, so the claim's "fixed explanatory message" fails for
the malformed-output case. -/
theorem C8_counterexample :
    (_parse_agent_output (AgentOutput.unparsable "agent returned prose")).explanation
      = "agent returned prose" ∧
    (_parse_agent_output (AgentOutput.unparsable "agent returned prose")).signal
      = SignalType.hold ∧
    (_parse_agent_output (AgentOutput.unparsable "agent returned prose")).explanation
      ≠ fallbackExplanation ∧
    (_parse_agent_output (AgentOutput.unparsable "some other prose")).explanation
      = "some other prose" ∧
    ("agent returned prose" : String) ≠ "some other prose" := by
  refine ⟨rfl, rfl, by decide, rfl, by decide⟩

/-- C8 (amended): a rate-limit-class failure of the reasoning
collaborator propagates to the caller unchanged; any other exception
from it is replaced by the HOLD fallback with the fixed explanatory
message and the request succeeds; and reasoning output that cannot be
parsed yields a HOLD-equivalent decision (signal HOLD, confidence 0.5)
whose explanation is the raw output — not the fixed message — and the
request succeeds. -/
theorem C8_reasoning_failures :
    (∀ (env : Env) (request : AnalyzeRequest) (cache : Cache) (p : PriceData),
      env.agent = AgentBehavior.rateLimited → env.price = some p →
      get_cached cache (pyUpper request.ticker) = none →
      analyze env request cache = (Except.error OrchError.llmRateLimit, cache)) ∧
    (∀ (env : Env) (request : AnalyzeRequest) (cache : Cache) (p : PriceData),
      env.agent = AgentBehavior.fails → env.price = some p →
      get_cached cache (pyUpper request.ticker) = none →
      ∃ res cache2, analyze env request cache = (Except.ok res, cache2) ∧
        res.signal = SignalType.hold ∧ res.explanation = fallbackExplanation) ∧
    (∀ t : String, _parse_agent_output (AgentOutput.unparsable t) =
      { signal := SignalType.hold, confidence := 1/2, explanation := t }) ∧
    (∀ (env : Env) (request : AnalyzeRequest) (cache : Cache) (p : PriceData) (t : String),
      env.agent = AgentBehavior.outputs (AgentOutput.unparsable t) → env.price = some p →
      get_cached cache (pyUpper request.ticker) = none →
      ∃ res cache2, analyze env request cache = (Except.ok res, cache2) ∧
        res.signal = SignalType.hold ∧ res.explanation = t) := by
  refine ⟨?_, ?_, fun t => rfl, ?_⟩
  · intro env request cache p hag hprice hmiss
    simp only [analyze, hmiss, hprice, hag, agentStep]
  · intro env request cache p hag hprice hmiss
    simp only [analyze, hmiss, hprice, hag, agentStep]
    exact ⟨_, _, rfl, rfl, rfl⟩
  · intro env request cache p t hag hprice hmiss
    simp only [analyze, hmiss, hprice, hag, agentStep, _parse_agent_output]
    exact ⟨_, _, rfl, rfl, rfl⟩

/-- C8 witness: the three orchestrator-level conjuncts instantiated at
concrete environments (rate-limited, failing, and malformed-output
reasoning collaborators). -/
theorem C8_reasoning_failures_witness :
    (analyze
      { price := some {}, companyName := none, technicals := none, fundamentals := none,
        news := none, classifier := ClassifierBehavior.raises,
        agent := AgentBehavior.rateLimited, now := 0 }
      { ticker := "ZZZZ" } [] = (Except.error OrchError.llmRateLimit, ([] : Cache))) ∧
    (∃ res cache2, analyze
      { price := some {}, companyName := none, technicals := none, fundamentals := none,
        news := none, classifier := ClassifierBehavior.raises,
        agent := AgentBehavior.fails, now := 0 }
      { ticker := "ZZZZ" } [] = (Except.ok res, cache2) ∧
      res.signal = SignalType.hold ∧ res.explanation = fallbackExplanation) ∧
    (∃ res cache2, analyze
      { price := some {}, companyName := none, technicals := none, fundamentals := none,
        news := none, classifier := ClassifierBehavior.raises,
        agent := AgentBehavior.outputs (AgentOutput.unparsable "agent returned prose"),
        now := 0 }
      { ticker := "ZZZZ" } [] = (Except.ok res, cache2) ∧
      res.signal = SignalType.hold ∧ res.explanation = "agent returned prose") :=
  ⟨C8_reasoning_failures.1
      { price := some {}, companyName := none, technicals := none, fundamentals := none,
        news := none, classifier := ClassifierBehavior.raises,
        agent := AgentBehavior.rateLimited, now := 0 }
      { ticker := "ZZZZ" } [] {} rfl rfl rfl,
   C8_reasoning_failures.2.1
      { price := some {}, companyName := none, technicals := none, fundamentals := none,
        news := none, classifier := ClassifierBehavior.raises,
        agent := AgentBehavior.fails, now := 0 }
      { ticker := "ZZZZ" } [] {} rfl rfl rfl,
   C8_reasoning_failures.2.2.2
      { price := some {}, companyName := none, technicals := none, fundamentals := none,
        news := none, classifier := ClassifierBehavior.raises,
        agent := AgentBehavior.outputs (AgentOutput.unparsable "agent returned prose"),
        now := 0 }
      { ticker := "ZZZZ" } [] {} "agent returned prose" rfl rfl rfl⟩

/-- C9 counterexample: when the classification call raises (here: the
LLM call fails), the orchestrator leaves sentiment absent (`none`)
while the request still succeeds — the sentiment pillar is NOT always
fully populated with the neutral fallback. -/
theorem C9_counterexample :
    ((analyze
      { price := some {}, companyName := none, technicals := none, fundamentals := none,
        news := some [{ title := "headline one" }], classifier := ClassifierBehavior.raises,
        agent := AgentBehavior.fails, now := 0 }
      { ticker := "ZZZZ" } []).1.map (fun r => r.analysis.sentiment)) = Except.ok none ∧
    some _NEUTRAL_FALLBACK ≠ (none : Option SentimentAnalysis) := by
  exact ⟨rfl, by decide⟩

/-- C9 (amended): when the classifier's OUTPUT is malformed (not
parseable as JSON), `analyze_sentiment` returns the fully populated
neutral fallback (overall neutral, score 0.5, zero counts) and the
headlines unchanged; but when the classification CALL raises, the
orchestrator degrades sentiment to absent (`None`) without failing the
request. -/
theorem C9_sentiment_fallback :
    (∀ hs : List NewsSource,
      analyze_sentiment hs SentimentLLMResponse.notJson =
        (_NEUTRAL_FALLBACK, if hs.isEmpty then [] else hs)) ∧
    (_NEUTRAL_FALLBACK.overall = some SentimentType.neutral ∧
      _NEUTRAL_FALLBACK.score = some (1/2) ∧
      _NEUTRAL_FALLBACK.positive_count = 0 ∧ _NEUTRAL_FALLBACK.negative_count = 0 ∧
      _NEUTRAL_FALLBACK.neutral_count = 0) ∧
    (∀ (env : Env) (request : AnalyzeRequest) (cache : Cache) (p : PriceData)
        (hs : List NewsSource),
      env.classifier = ClassifierBehavior.raises → env.price = some p →
      env.news = some hs → hs ≠ [] → request.include_news = true →
      env.agent ≠ AgentBehavior.rateLimited →
      get_cached cache (pyUpper request.ticker) = none →
      ∃ res cache2, analyze env request cache = (Except.ok res, cache2) ∧
        res.analysis.sentiment = none) := by
  refine ⟨?_, ⟨rfl, rfl, rfl, rfl, rfl⟩, ?_⟩
  · intro hs
    unfold analyze_sentiment
    cases h : hs.isEmpty <;> simp [h]
  · intro env request cache p hs hclass hprice hnews hne hin hagent hmiss
    have hempty : hs.isEmpty = false := by
      cases hs with
      | nil => exact absurd rfl hne
      | cons a t => rfl
    rcases hag : env.agent with _ | _ | out
    · exact absurd hag hagent
    · simp only [analyze, hmiss, hprice, hnews, hin, hclass, hag, agentStep, if_true,
        Option.getD_some, hempty, Bool.false_eq_true, if_false]
      exact ⟨_, _, rfl, rfl⟩
    · simp only [analyze, hmiss, hprice, hnews, hin, hclass, hag, agentStep, if_true,
        Option.getD_some, hempty, Bool.false_eq_true, if_false]
      exact ⟨_, _, rfl, rfl⟩

/-- C9 witness: the classification-raises hypothesis of the amended
theorem discharged at a concrete environment with one headline. -/
theorem C9_sentiment_fallback_witness :
    ([{ title := "headline one" }] : List NewsSource) ≠ [] ∧
    (∃ res cache2, analyze
      { price := some {}, companyName := none, technicals := none, fundamentals := none,
        news := some [{ title := "headline one" }], classifier := ClassifierBehavior.raises,
        agent := AgentBehavior.fails, now := 0 }
      { ticker := "ZZZZ" } [] = (Except.ok res, cache2) ∧
      res.analysis.sentiment = none) :=
  ⟨by decide,
   C9_sentiment_fallback.2.2
     { price := some {}, companyName := none, technicals := none, fundamentals := none,
       news := some [{ title := "headline one" }], classifier := ClassifierBehavior.raises,
       agent := AgentBehavior.fails, now := 0 }
     { ticker := "ZZZZ" } [] {} [{ title := "headline one" }]
     rfl rfl rfl (by decide) rfl (by decide) rfl⟩

/-- `o` agrees with `orig` on every field except possibly `sentiment`. -/
def agreesExceptSentiment (o orig : NewsSource) : Prop :=
  { o with sentiment := orig.sentiment } = orig

lemma agreesExceptSentiment_refl (o : NewsSource) : agreesExceptSentiment o o := rfl

lemma agreesExceptSentiment_update (o orig : NewsSource) (s : Option SentimentType)
    (h : agreesExceptSentiment o orig) :
    agreesExceptSentiment { o with sentiment := s } orig := h

lemma getD_append_lt {α} (l l' : List α) (j : ℕ) (d : α) (h : j < l.length) :
    (l ++ l').getD j d = l.getD j d := by
  rw [List.getD_eq_getElem?_getD, List.getD_eq_getElem?_getD, List.getElem?_append_left h]

lemma getD_append_length {α} (l : List α) (x : α) (d : α) :
    (l ++ [x]).getD l.length d = x := by
  rw [List.getD_eq_getElem?_getD, List.getElem?_concat_length]
  rfl

lemma getD_set_self {α} (l : List α) (i : ℕ) (a : α) (d : α) (h : i < l.length) :
    (l.set i a).getD i d = a := by
  rw [List.getD_eq_getElem?_getD, List.getElem?_set_self', List.getElem?_eq_getElem h]
  rfl

lemma getD_set_ne {α} (l : List α) (i j : ℕ) (a : α) (d : α) (h : i ≠ j) :
    (l.set i a).getD j d = l.getD j d := by
  rw [List.getD_eq_getElem?_getD, List.getD_eq_getElem?_getD, List.getElem?_set_ne h]

/-- Loop invariant of the heap-level classification loop: the heap
only grows (no pre-existing object is written), the reference list
keeps its length, and every slot refers to an in-bounds object that
agrees with the caller's original object except for the sentiment
label. -/
def SentHeapInv (heap0 : List NewsSource) (ids : List ℕ)
    (st : List NewsSource × List ℕ × ℕ × ℕ × ℕ) : Prop :=
  (∃ ext, st.1 = heap0 ++ ext) ∧
  st.2.1.length = ids.length ∧
  (∀ k, k < ids.length →
    st.2.1.getD k 0 < st.1.length ∧
    agreesExceptSentiment (st.1.getD (st.2.1.getD k 0) dummyNews)
      (heap0.getD (ids.getD k 0) dummyNews))

lemma sentimentStepHeap_inv (heap0 : List NewsSource) (ids : List ℕ)
    (st : List NewsSource × List ℕ × ℕ × ℕ × ℕ) (item : HeadlineItem)
    (h : SentHeapInv heap0 ids st) :
    SentHeapInv heap0 ids (sentimentStepHeap st item) := by
  obtain ⟨heap, upd, p, n, u⟩ := st
  simp only [SentHeapInv] at h ⊢
  obtain ⟨⟨ext, hext⟩, hlen, hk⟩ := h
  unfold sentimentStepHeap
  rcases item.index with _ | idx
  · exact ⟨⟨ext, hext⟩, hlen, hk⟩
  · simp only
    by_cases hb : 0 ≤ idx ∧ idx.toNat < upd.length
    · rw [if_pos hb]
      simp only
      refine ⟨⟨ext ++ [_], by rw [hext, List.append_assoc]⟩, ?_, ?_⟩
      · simpa using hlen
      · intro k hklen
        by_cases hki : k = idx.toNat
        · rw [hki]
          constructor
          · rw [getD_set_self upd idx.toNat _ 0 hb.2]
            simp
          · rw [getD_set_self upd idx.toNat _ 0 hb.2, getD_append_length]
            exact agreesExceptSentiment_update _ _ _ ((hk idx.toNat (hki ▸ hklen)).2)
        · have hne : idx.toNat ≠ k := fun hc => hki hc.symm
          rw [getD_set_ne upd _ k _ 0 hne]
          obtain ⟨hlt, hagree⟩ := hk k hklen
          constructor
          · simp only [List.length_append, List.length_cons, List.length_nil]
            omega
          · rw [getD_append_lt _ _ _ _ hlt]
            exact hagree
    · rw [if_neg hb]
      exact ⟨⟨ext, hext⟩, hlen, hk⟩

lemma foldl_sentimentStepHeap_inv (heap0 : List NewsSource) (ids : List ℕ) :
    ∀ (items : List HeadlineItem) (st : List NewsSource × List ℕ × ℕ × ℕ × ℕ),
      SentHeapInv heap0 ids st →
      SentHeapInv heap0 ids (items.foldl sentimentStepHeap st) := by
  intro items
  induction items with
  | nil => exact fun st h => h
  | cons it rest ih =>
      intro st h
      exact ih _ (sentimentStepHeap_inv heap0 ids st it h)



/-- C10: heap-level frame property of `analyze_sentiment`: the
classification loop never writes to a pre-existing object (the final
heap extends the initial one and every original slot is unchanged, so
the caller's list is element-for-element intact), the freshly built
result list has the caller's length, and each of its slots refers to
an object that agrees with the corresponding original on every field
except the attached sentiment label (labels are set on copies). -/
theorem C10_sentiment_no_mutation :
    ∀ (heap : List NewsSource) (ids : List ℕ) (resp : SentimentLLMResponse),
      (∀ i ∈ ids, i < heap.length) →
      (∃ ext, (analyze_sentiment_heap heap ids resp).1 = heap ++ ext) ∧
      (∀ j, j < heap.length →
        (analyze_sentiment_heap heap ids resp).1.getD j dummyNews = heap.getD j dummyNews) ∧
      (analyze_sentiment_heap heap ids resp).2.1.length = ids.length ∧
      (∀ k, k < ids.length →
        (analyze_sentiment_heap heap ids resp).2.1.getD k 0 <
          (analyze_sentiment_heap heap ids resp).1.length ∧
        agreesExceptSentiment
          ((analyze_sentiment_heap heap ids resp).1.getD
            ((analyze_sentiment_heap heap ids resp).2.1.getD k 0) dummyNews)
          (heap.getD (ids.getD k 0) dummyNews)) := by
  intro heap ids resp hvalid
  have hinit : SentHeapInv heap ids (heap, ids, 0, 0, 0) := by
    refine ⟨⟨[], by simp⟩, rfl, ?_⟩
    intro k hk
    have hmem : ids.getD k 0 ∈ ids := by
      rw [List.getD_eq_getElem ids 0 hk]
      exact List.getElem_mem hk
    exact ⟨hvalid _ hmem, agreesExceptSentiment_refl _⟩
  have H : SentHeapInv heap ids
      ((analyze_sentiment_heap heap ids resp).1,
       (analyze_sentiment_heap heap ids resp).2.1, 0, 0, 0) := by
    unfold analyze_sentiment_heap
    cases hemp : ids.isEmpty
    · cases resp with
      | notJson =>
          simp only [hemp, Bool.false_eq_true, if_false]
          exact hinit
      | json data =>
          simp only [hemp, Bool.false_eq_true, if_false]
          have hfold := foldl_sentimentStepHeap_inv heap ids data.headlines
            (heap, ids, 0, 0, 0) hinit
          exact ⟨hfold.1, hfold.2.1, hfold.2.2⟩
    · have hnil : ids = [] := List.isEmpty_iff.mp hemp
      simp only [hemp, if_true]
      subst hnil
      exact ⟨⟨[], by simp⟩, rfl, fun k hk => absurd hk (by simp)⟩
  obtain ⟨⟨ext, hext⟩, hlen, hk⟩ := H
  refine ⟨⟨ext, hext⟩, ?_, hlen, hk⟩
  intro j hj
  rw [hext]
  exact getD_append_lt _ _ _ _ hj

/-- C10 witness: the in-bounds hypothesis discharged at a one-element
heap with one reference and a classifier response labelling it. -/
theorem C10_sentiment_no_mutation_witness :
    (∀ i ∈ ([0] : List ℕ), i < ([{ title := "h" }] : List NewsSource).length) ∧
    (∃ ext, (analyze_sentiment_heap [{ title := "h" }] [0]
        (SentimentLLMResponse.json
          { headlines := [{ index := some 0, sentiment := some "positive" }] })).1
      = [{ title := "h" }] ++ ext) :=
  ⟨by decide,
   (C10_sentiment_no_mutation [{ title := "h" }] [0]
     (SentimentLLMResponse.json
       { headlines := [{ index := some 0, sentiment := some "positive" }] })
     (by decide)).1⟩

end StockSignal
